import Mathlib

/-!
Verification development for the `testseo` repository, an SEO/performance
analyzer server.  The repository contains three evolutions of the same
Express server:

* `src/unnamed/part_000` — oldest variant: four categories
  (seo/performance/security/mobile), a `BrowserManager` with no
  initialization flag, `analyzePage` throwing on HTTP status >= 400;
* `src/server.js` — middle variant: four categories, a `BrowserManager`
  guarded by an `isInitializing` flag with a bounded wait loop,
  `analyzePage` throwing on HTTP status >= 400, take-the-max Lighthouse
  score merge;
* `src/unnamed/part_001` — newest variant: five weighted categories
  (commonSeo/speed/security/mobile/advancedSeo), `getPageContent`
  returning best-effort content on status >= 400, a central
  `calculateScores` with fixed weights.

The definitions below are shallow embeddings of those functions:
JavaScript numbers used in the score arithmetic are modelled as `ℚ`
(the concrete IEEE computations at the inputs appearing in the claims
are exact), machine interaction (browser, page, TLS socket, Lighthouse
process) is modelled by explicit environment/outcome values, and the
cooperative single-threaded concurrency of Node.js is modelled as a
step function over explicit program counters, interleaved by a
scheduler word.
-/

namespace TestSeo

/-- JavaScript `Math.round`: rounds half away from zero toward +∞,
i.e. `Math.round x = ⌊x + 1/2⌋`. -/
def jsRound (q : ℚ) : ℤ := Int.floor (q + 1/2)

/-! ### Score aggregation (`src/unnamed/part_001`, `calculateScores`) -/

/-- One category block of an analysis report: a numeric score together
with the three ordered finding lists, as in
`{ score: 0, failed: [], warnings: [], passed: [] }`. -/
structure Category where
  score : ℤ
  failed : List String
  warnings : List String
  passed : List String
deriving Repr, DecidableEq

def emptyCategory : Category := ⟨0, [], [], []⟩

def addPassed (c : Category) (m : String) : Category :=
  { c with passed := c.passed ++ [m] }

def addFailed (c : Category) (m : String) : Category :=
  { c with failed := c.failed ++ [m] }

def addWarning (c : Category) (m : String) : Category :=
  { c with warnings := c.warnings ++ [m] }

/-- `totalChecks` of a category, as computed in `calculateScores`:
`category.passed.length + category.failed.length + category.warnings.length`. -/
def Category.total (c : Category) : ℕ :=
  c.passed.length + c.failed.length + c.warnings.length

/-- The per-category scoring step of `calculateScores`
(src/unnamed/part_001 lines 262-269): if `totalChecks > 0` the score is
`Math.round(((passed + warnings*0.5) / totalChecks) * 100)`, otherwise
the category defaults to `100`. -/
def scoreCategory (c : Category) : Category :=
  if 0 < c.total then
    { c with score :=
        jsRound ((((c.passed.length : ℚ) + (c.warnings.length : ℚ) * (1/2)) /
          (c.total : ℚ)) * 100) }
  else
    { c with score := 100 }

/-- The part of the analysis report the claims are about: the five
category blocks, the derived totals, and the two async sub-task result
blocks (`lighthouseReport`, `sslInfo`, modelled as `Option` since the
handler initializes them to `{}` before the awaits). -/
structure SslInfoP where
  subject : String
  issuer : String
  validFrom : String
  validTo : String
  isExpired : Bool
deriving Repr, DecidableEq

/-- Outcome of awaiting `sslPromise` in the five-category handler:
either the resolved certificate record, the `.catch` error record
`{ error: 'SSL Info not available.', message }`, or the non-HTTPS
placeholder `{ info: 'Site is not using HTTPS.' }`. -/
inductive SslOutcomeP where
  | ok (info : SslInfoP)
  | err (message : String)
  | notHttps
deriving Repr, DecidableEq

/-- Successful Lighthouse result, as built by `runLighthouseAnalysis`
in src/unnamed/part_001 (scores already mapped to 0-100 integers). -/
structure LighthouseResultP where
  performance : ℤ
  accessibility : ℤ
  bestPractices : ℤ
  seo : ℤ
  firstContentfulPaint : String
  largestContentfulPaint : String
  speedIndex : String
  cumulativeLayoutShift : String
  renderBlockingResources : ℕ
deriving Repr, DecidableEq

/-- Outcome of awaiting `lighthousePromise` in the five-category
handler: the resolved result, or the `.catch` error marker
`{ error: 'Lighthouse analysis failed.', message }`. -/
inductive LhOutcomeP where
  | ok (r : LighthouseResultP)
  | err (message : String)
deriving Repr, DecidableEq

structure Results where
  commonSeo : Category
  speed : Category
  security : Category
  mobile : Category
  advancedSeo : Category
  overallScore : ℤ
  totalFailed : ℕ
  totalWarnings : ℕ
  totalPassed : ℕ
  lighthouseReport : Option LhOutcomeP
  sslInfo : Option SslOutcomeP
deriving Repr, DecidableEq

/-- `calculateScores` (src/unnamed/part_001 lines 259-287): score each
of the five categories, then the weighted overall score with weights
`{ commonSeo: 0.3, speed: 0.3, security: 0.15, mobile: 0.15,
advancedSeo: 0.1 }` (all five category fields always exist on the
report object, so every weight is accumulated and `totalWeight = 1`),
then the three totals. -/
def calculateScores (r : Results) : Results :=
  let r' : Results :=
    { r with
      commonSeo := scoreCategory r.commonSeo
      speed := scoreCategory r.speed
      security := scoreCategory r.security
      mobile := scoreCategory r.mobile
      advancedSeo := scoreCategory r.advancedSeo }
  let totalScore : ℚ :=
    (r'.commonSeo.score : ℚ) * (3/10) + (r'.speed.score : ℚ) * (3/10) +
    (r'.security.score : ℚ) * (3/20) + (r'.mobile.score : ℚ) * (3/20) +
    (r'.advancedSeo.score : ℚ) * (1/10)
  let totalWeight : ℚ := 3/10 + 3/10 + 3/20 + 3/20 + 1/10
  { r' with
    overallScore := if 0 < totalWeight then jsRound (totalScore / totalWeight) else 0
    totalPassed := r'.commonSeo.passed.length + r'.speed.passed.length +
      r'.security.passed.length + r'.mobile.passed.length + r'.advancedSeo.passed.length
    totalWarnings := r'.commonSeo.warnings.length + r'.speed.warnings.length +
      r'.security.warnings.length + r'.mobile.warnings.length + r'.advancedSeo.warnings.length
    totalFailed := r'.commonSeo.failed.length + r'.speed.failed.length +
      r'.security.failed.length + r'.mobile.failed.length + r'.advancedSeo.failed.length }

/-! ### Rule Evaluator (`src/unnamed/part_001`, handler lines 338-409)

The cheerio queries are abstracted into a record of extracted page
facts (one field per distinct selector/attribute the handler reads);
the check battery itself is translated statement by statement.  JS
string `.length` is modelled by `String.length` and the JS
`String.prototype.includes` test by `strContains`. -/

/-- `s.includes(pat)`: `pat` occurs as a contiguous substring of `s`. -/
def strContains (s pat : String) : Bool :=
  (List.range (s.toList.length + 1)).any (fun i => pat.toList.isPrefixOf (s.toList.drop i))

/-- The inputs of the check battery: the page facts extracted through
cheerio from the fetched HTML, plus the response headers, console
errors, parsed-URL protocol and HTTP status returned by
`getPageContent`. -/
structure PageInputs where
  /-- `$(title).text().trim()` (empty string when the tag is absent). -/
  title : String
  /-- `$(meta description).attr(content)?.trim()`; `none` when absent. -/
  metaDescription : Option String
  /-- `$(h1).length` -/
  h1Count : ℕ
  /-- `$(img).length` -/
  imgCount : ℕ
  /-- count of images with missing or empty `alt` -/
  imgsWithoutAlt : ℕ
  /-- script errors collected by the `pageerror` listener -/
  consoleErrors : List String
  /-- `$(style).length` -/
  styleTagCount : ℕ
  /-- `$([style]).length` -/
  inlineStyleAttrCount : ℕ
  /-- `Buffer.byteLength(content, utf-8)` -/
  htmlBytes : ℕ
  /-- `content.includes(http-colon-slash-slash)` -/
  contentHasHttp : Bool
  /-- `$(meta viewport).attr(content)`; `none` when absent -/
  viewport : Option String
  /-- `$(link canonical).attr(href)`; `none` when absent -/
  canonical : Option String
  /-- `$(script type application/ld+json).length` -/
  jsonLdCount : ℕ
  /-- `$(link rel*=icon).length` -/
  iconLinkCount : ℕ
  /-- `headers[strict-transport-security]` is present and non-empty -/
  hstsHeader : Bool
  /-- `parsedUrl.protocol === https:` -/
  httpsProtocol : Bool
  /-- the HTTP status from the page fetch -/
  status : ℕ
deriving Repr, DecidableEq

/-- The HTML size in KB used by the speed check:
`Buffer.byteLength(content, utf-8) / 1024` (the un-rounded value, which
is what the `htmlSize < 50` comparison uses).  The two-decimal
`toFixed(2)` rendering inside the finding messages is abstracted to a
deterministic `toString` of this rational. -/
def htmlSizeKB (i : PageInputs) : ℚ := (i.htmlBytes : ℚ) / 1024

/-- The empty report the handler builds before running any check
(src/unnamed/part_001 lines 312-326, restricted to the fields the
claims are about). -/
def initialResults : Results :=
  { commonSeo := emptyCategory
    speed := emptyCategory
    security := emptyCategory
    mobile := emptyCategory
    advancedSeo := emptyCategory
    overallScore := 0
    totalFailed := 0
    totalWarnings := 0
    totalPassed := 0
    lighthouseReport := none
    sslInfo := none }

/-- The commonSeo pushes of the check battery (src/unnamed/part_001
lines 339-371), in source order: title tag, meta description, H1 count,
image alt attributes (skipped when no images), console errors.  Each
rule mutates no category other than commonSeo, so the battery is
grouped here per target category. -/
def commonSeoChecks (i : PageInputs) : Category :=
  let c :=
    if i.title ≠ "" then
      if 10 < i.title.length ∧ i.title.length < 70 then
        addPassed emptyCategory
          ("Title tag is a good length (" ++ toString i.title.length ++ " characters).")
      else
        addWarning emptyCategory
          ("Title tag length is " ++ toString i.title.length ++
            " characters. Recommended is 10-70.")
    else addFailed emptyCategory "Missing title tag."
  let c :=
    match i.metaDescription with
    | some d =>
      if d ≠ "" then
        if 70 < d.length ∧ d.length < 160 then
          addPassed c
            ("Meta description is a good length (" ++ toString d.length ++ " characters).")
        else
          addWarning c
            ("Meta description length is " ++ toString d.length ++
              " characters. Recommended is 70-160.")
      else addFailed c "Missing meta description tag."
    | none => addFailed c "Missing meta description tag."
  let c :=
    if i.h1Count = 1 then addPassed c "Page has exactly one H1 tag."
    else if i.h1Count = 0 then addFailed c "Page is missing an H1 tag."
    else addWarning c
      ("Page has " ++ toString i.h1Count ++ " H1 tags. Only one is recommended.")
  let c :=
    if 0 < i.imgCount then
      if i.imgsWithoutAlt = 0 then
        addPassed c ("All " ++ toString i.imgCount ++ " images have alt attributes.")
      else
        addFailed c
          (toString i.imgsWithoutAlt ++ " out of " ++ toString i.imgCount ++
            " images are missing descriptive alt attributes.")
    else c
  if i.consoleErrors.length = 0 then
    addPassed c "No JavaScript errors detected in the console."
  else
    addFailed c
      ("Detected " ++ toString i.consoleErrors.length ++
        " JavaScript errors in the console.")

/-- The speed pushes of the check battery (src/unnamed/part_001 lines
373-380): inline CSS count, HTML size. -/
def speedChecks (i : PageInputs) : Category :=
  let inlineCssCount := i.styleTagCount + i.inlineStyleAttrCount
  let c :=
    if 10 < inlineCssCount then
      addWarning emptyCategory
        ("High use of inline CSS (" ++ toString inlineCssCount ++
          " instances). Consider moving to external stylesheets.")
    else addPassed emptyCategory "Low usage of inline CSS styles."
  if htmlSizeKB i < 50 then
    addPassed c ("HTML page size is small (" ++ toString (htmlSizeKB i) ++ " KB).")
  else
    addWarning c ("HTML page size is " ++ toString (htmlSizeKB i) ++ " KB. Consider reducing it.")

/-- The security pushes of the check battery (src/unnamed/part_001
lines 382-391): HTTPS protocol plus mixed content, HSTS header. -/
def securityChecks (i : PageInputs) : Category :=
  let c :=
    if i.httpsProtocol then
      let c := addPassed emptyCategory "Site uses HTTPS."
      if i.contentHasHttp then
        addWarning c "Mixed content warning: Page loads assets over insecure HTTP."
      else addPassed c "No mixed content detected."
    else
      addFailed emptyCategory
        "Site does not use HTTPS. This is a major security and SEO issue."
  if i.hstsHeader then
    addPassed c "HTTP Strict Transport Security (HSTS) header is present."
  else addWarning c "HSTS header is not present."

/-- The single mobile push of the check battery (src/unnamed/part_001
lines 393-395): viewport meta. -/
def mobileChecks (i : PageInputs) : Category :=
  match i.viewport with
  | some v =>
    if strContains v "width=device-width" then
      addPassed emptyCategory "A mobile-friendly viewport is configured."
    else addFailed emptyCategory "Viewport meta tag is missing or misconfigured."
  | none => addFailed emptyCategory "Viewport meta tag is missing or misconfigured."

/-- The advancedSeo pushes of the check battery (src/unnamed/part_001
lines 397-409): canonical link, structured data, favicon, response
status. -/
def advancedSeoChecks (i : PageInputs) : Category :=
  let c :=
    match i.canonical with
    | some cn =>
      if cn ≠ "" then addPassed emptyCategory ("Canonical tag found: " ++ cn)
      else addWarning emptyCategory "No canonical tag found."
    | none => addWarning emptyCategory "No canonical tag found."
  let c :=
    if 0 < i.jsonLdCount then addPassed c "Structured data (JSON-LD) was found."
    else addWarning c "No structured data (JSON-LD) was found."
  let c :=
    if 0 < i.iconLinkCount then addPassed c "A favicon is specified."
    else addFailed c "Favicon link is missing."
  if i.status = 404 then
    addFailed c "The page returned a 404 Not Found status."
  else if 400 ≤ i.status then
    addFailed c ("The page returned an error status: " ++ toString i.status ++ ".")
  else
    addPassed c ("Page loaded successfully with status " ++ toString i.status ++ ".")

/-- The cheerio-based check battery of the five-category handler
(src/unnamed/part_001 lines 338-409).  Every rule in the source writes
to exactly one category, so running the battery is the five per-category
check functions applied to the initial report. -/
def runChecks (i : PageInputs) : Results :=
  { initialResults with
    commonSeo := commonSeoChecks i
    speed := speedChecks i
    security := securityChecks i
    mobile := mobileChecks i
    advancedSeo := advancedSeoChecks i }

/-! ### Async sub-task result merging

`src/unnamed/part_001` attaches `.catch` handlers to the Lighthouse and
SSL promises, so awaiting them always yields a value (a success record
or an error record); the handler then merges that value into the
report.  `src/server.js` wraps the same sub-tasks in `try`/`catch`
around a `Promise.race` with a timer. -/

/-- Lighthouse merge of the five-category handler
(src/unnamed/part_001 lines 412-419): only on success is a
render-blocking-resources finding appended to the speed category; an
error outcome leaves every category untouched. -/
def lhMergeP (speed : Category) (o : LhOutcomeP) : Category :=
  match o with
  | .ok r =>
    if r.renderBlockingResources = 0 then
      addPassed speed "No render-blocking resources found by Lighthouse."
    else
      addFailed speed
        ("Lighthouse detected " ++ toString r.renderBlockingResources ++
          " render-blocking resources.")
  | .err _ => speed

/-- SSL merge of the five-category handler (src/unnamed/part_001 lines
421-430): a certificate record appends a passed or failed finding, an
error record appends a FAILED finding, the non-HTTPS placeholder
appends nothing. -/
def sslMergeP (security : Category) (o : SslOutcomeP) : Category :=
  match o with
  | .ok info =>
    if info.isExpired then
      addFailed security ("SSL certificate expired on " ++ info.validTo ++ ".")
    else
      addPassed security ("SSL certificate is valid until " ++ info.validTo ++ ".")
  | .err m => addFailed security ("Could not verify SSL certificate: " ++ m)
  | .notHttps => security

/-- The report as it stands right before `calculateScores(results)`:
checks done, `lighthouseReport` and `sslInfo` awaited and merged. -/
def mergedReport (i : PageInputs) (lh : LhOutcomeP) (ssl : SslOutcomeP) : Results :=
  let r := runChecks i
  { r with
    speed := lhMergeP r.speed lh
    security := sslMergeP r.security ssl
    lighthouseReport := some lh
    sslInfo := some ssl }

/-- The tail of the five-category `/api/analyze` handler after the page
fetch: run the check battery, await and merge the two async sub-task
outcomes, then compute the scores.  It is a total function: failed
sub-tasks are data, so the handler always produces a full report (the
200 response path). -/
def analyzeHandler (i : PageInputs) (lh : LhOutcomeP) (ssl : SslOutcomeP) : Results :=
  calculateScores (mergedReport i lh ssl)

/-! ### `src/server.js` sub-task handling (four-category variant) -/

/-- Successful Lighthouse result in src/server.js
(`runLighthouseAnalysis` lines 861-870): the category scores are always
`Math.round((score || 0) * 100)` integers, so on success the
`!== N/A` guards at lines 780-784 are true. -/
structure LighthouseResultS where
  performance : ℤ
  accessibility : ℤ
  bestPractices : ℤ
  seo : ℤ
deriving Repr, DecidableEq

/-- `lighthouseMetrics` of src/server.js after the try/catch: the
success record, or the fixed-shape all-`N/A` error marker whose
`error` field is `Analysis timed out` or `Analysis failed`
(lines 789-799). -/
inductive LhMetricsS where
  | result (r : LighthouseResultS)
  | marker (error : String)
deriving Repr, DecidableEq

/-- The Lighthouse step of the src/server.js handler (lines 766-800):
on success the performance and seo category scores are raised to the
maximum of the rule-based score and the audit score; on failure (or
timeout) the scores are untouched and the metrics block becomes the
fixed-shape error marker. -/
def lhStepServer (perfScore seoScore : ℤ) (o : Except String LighthouseResultS) :
    ℤ × ℤ × LhMetricsS :=
  match o with
  | .ok r => (max perfScore r.performance, max seoScore r.seo, .result r)
  | .error m =>
    (perfScore, seoScore,
      .marker (if strContains m "timeout" then "Analysis timed out" else "Analysis failed"))

/-- The SSL step of the src/server.js handler (lines 750-763), which
runs after the security score has already been computed from the other
checks at line 707: success appends a passed finding, failure or
timeout appends a WARNING finding; the score field is not touched in
either case. -/
def sslStepServer (security : Category) (o : Except String Unit) : Category :=
  match o with
  | .ok _ => addPassed security "SSL certificate is valid and properly configured"
  | .error _ => addWarning security "SSL certificate analysis failed or timed out"

/-! ### Page fetching

Both fetchers are modelled as functions of an explicit environment
describing what the browser/network would do, instrumented with the
number of page sessions opened and closed, so that the cleanup
discipline is a provable statement. -/

/-- The navigation response (`page.goto` resolved value) as far as the
fetchers inspect it: status, headers and status text. -/
structure NavResponse where
  status : ℕ
  headers : List (String × String)
  statusText : String
deriving Repr, DecidableEq

/-- What `getPageContent` returns to the five-category handler. -/
structure FetchResult where
  content : String
  headers : List (String × String)
  consoleErrors : List String
  status : ℕ
deriving Repr, DecidableEq

deriving instance DecidableEq for Except

/-- Environment of one `getPageContent` call: whether browser
acquisition and page creation succeed, the `page.goto` outcome (throw,
null response, or a response), the `page.content()` outcome, and the
collected console errors. -/
structure FetchEnv where
  browserOk : Bool
  newPageOk : Bool
  navResult : Except String (Option NavResponse)
  pageContent : Except String String
  consoleErrors : List String
deriving Repr, DecidableEq

/-- `getPageContent` of src/unnamed/part_001 (lines 143-181),
instrumented with (pages opened, pages closed).  The `finally` block
closes the page whenever one was created and not yet closed; on a
status >= 400 response the content is still returned, with a fallback
body when `page.content()` itself throws. -/
def getPageContent (env : FetchEnv) : Except String FetchResult × ℕ × ℕ :=
  if !env.browserOk then (.error "Browser is not available or connected", 0, 0)
  else if !env.newPageOk then (.error "Failed to create page", 0, 0)
  else
    match env.navResult with
    | .error e => (.error e, 1, 1)
    | .ok none => (.error "No response received from the server.", 1, 1)
    | .ok (some resp) =>
      if 400 ≤ resp.status then
        let errorContent :=
          match env.pageContent with
          | .ok c => c
          | .error _ =>
            "<html><body>HTTP " ++ toString resp.status ++ " error.</body></html>"
        (.ok ⟨errorContent, resp.headers, env.consoleErrors, resp.status⟩, 1, 1)
      else
        match env.pageContent with
        | .error e => (.error e, 1, 1)
        | .ok c => (.ok ⟨c, resp.headers, env.consoleErrors, resp.status⟩, 1, 1)

/-! #### `analyzePage` of src/server.js (lines 176-359) -/

/-- Outcome of one navigation attempt inside the inner loop of
`analyzePage`: success (navigation, settle wait and `page.content()`
all fine), a null response, an HTTP error status, or a thrown error
carrying its message (covers goto throws, timeouts, and the
incomplete-content check). -/
inductive NavOutcome where
  | success (content : String)
  | noResponse
  | httpError (status : ℕ) (statusText : String)
  | thrown (msg : String)
deriving Repr, DecidableEq

/-- The error message a failing navigation attempt produces. -/
def navOutcomeMsg : NavOutcome → String
  | .success _ => ""
  | .noResponse => "No response received from the server"
  | .httpError s t => "HTTP " ++ toString s ++ ": " ++ t
  | .thrown m => m

/-- The error-message classification applied after the last navigation
attempt (src/server.js lines 299-311). -/
def classifyNavError (m : String) : String :=
  if strContains m "Target closed" || strContains m "Session closed" then
    "The website connection was unexpectedly closed. This might be due to anti-bot protection or server issues."
  else if strContains m "timeout" then
    "The website took too long to respond. It might be slow or experiencing high traffic."
  else if strContains m "net::ERR_NAME_NOT_RESOLVED" then
    "The website domain could not be found. Please check if the URL is correct."
  else if strContains m "net::ERR_CONNECTION_REFUSED" then
    "The website refused the connection. The server might be down or blocking requests."
  else if strContains m "net::ERR_CERT_" then
    "There is an SSL certificate issue with this website."
  else m

/-- The inner navigation loop of `analyzePage` (three attempts; the
loop opens no page of its own — the page was created before it).  A
failing last attempt throws the classified message. -/
def navAttemptLoop : List NavOutcome → Except String String
  | [] => .error "Failed to load page after 3 navigation attempts: "
  | [o] =>
    match o with
    | .success c => .ok c
    | o =>
      .error ("Failed to load page after 3 navigation attempts: " ++
        classifyNavError (navOutcomeMsg o))
  | o :: rest =>
    match o with
    | .success c => .ok c
    | _ => navAttemptLoop rest

/-- Environment of one iteration of the outer retry loop of
`analyzePage`: DNS pre-flight result, `browser.newPage()` result, and
the outcomes of the (up to three) navigation attempts. -/
structure IterEnv where
  dnsOk : Bool
  newPageOk : Bool
  navs : List NavOutcome
deriving Repr, DecidableEq

/-- The retry condition of the outer loop (src/server.js lines
334-338): only browser-related error messages trigger a browser
restart and another iteration. -/
def browserRelated (m : String) : Bool :=
  strContains m "Target closed" || strContains m "Session closed" ||
  strContains m "Browser is not available" || strContains m "page is null"

/-- One iteration of the outer loop of `analyzePage`, instrumented with
(pages opened, pages closed).  The DNS failure and null-page throws
happen before a page exists; once a page is created, either the success
path closes it in `finally`, or the `catch` block closes it and sets it
to null so `finally` does not close it again — one close either way. -/
def analyzeIter (e : IterEnv) : Except String String × ℕ × ℕ :=
  if !e.dnsOk then
    (.error "Invalid URL format: DNS resolution failed. The domain may not exist or be unreachable.", 0, 0)
  else if !e.newPageOk then
    (.error "Failed to create new page - page is null", 0, 0)
  else
    match navAttemptLoop e.navs with
    | .ok c => (.ok c, 1, 1)
    | .error m => (.error m, 1, 1)

/-- The outer retry loop of `analyzePage` (`retryCount <= maxRetries`
with `maxRetries = 2`, so `retriesLeft` starts at 2), instrumented with
the page open/close totals across all iterations. -/
def analyzePageLoop (iters : List IterEnv) (retriesLeft : ℕ) :
    Except String String × ℕ × ℕ :=
  match iters with
  | [] => (.error "Browser is not available or connected", 0, 0)
  | e :: rest =>
    match analyzeIter e with
    | (.ok c, o, cl) => (.ok c, o, cl)
    | (.error m, o, cl) =>
      if 0 < retriesLeft ∧ browserRelated m then
        let r := analyzePageLoop rest (retriesLeft - 1)
        (r.1, o + r.2.1, cl + r.2.2)
      else (.error m, o, cl)

/-- `analyzePage` of src/server.js with its initial retry budget. -/
def analyzePage (iters : List IterEnv) : Except String String × ℕ × ℕ :=
  analyzePageLoop iters 2

/-! ### Browser Resource Manager concurrency

Node.js runs the server single-threaded: overlapping `getBrowser`
calls interleave only at `await` points.  Each caller is modelled as a
program counter advancing through the atomic segments of `getBrowser`
(the code between consecutive `await`s), the shared manager fields as a
global record, and an interleaving as the word of scheduler choices.
Launching always succeeds when the scheduler completes it, the browser
never reports disconnected, and the idle timeout never fires — the
relevant races exist already under these simplifications. -/

/-- Program counter of one `getBrowser` caller.
`entry`: about to run the code up to the first `await`;
`waiting n`: inside the bounded poll loop with `n` polls remaining;
`launching`: a `puppeteer.launch` is in flight for this caller;
`done`: the call returned. -/
inductive PC where
  | entry
  | waiting (pollsLeft : ℕ)
  | launching
  | done
deriving Repr, DecidableEq

/-- The shared `BrowserManager` fields the race is about, plus a
history counter of `puppeteer.launch` invocations started. -/
structure Globals where
  browser : Bool
  isInitializing : Bool
  launches : ℕ
deriving Repr, DecidableEq

/-- One scheduler step of a caller in the src/server.js `getBrowser`
(lines 43-146).  From `entry`, a set `isInitializing` flag sends the
caller into the 30-poll wait loop; otherwise the `needsNewBrowser`
check runs and either starts a launch (setting the flag) or returns.
From `waiting n`, the poll observes the flag: cleared → re-check; still
set with polls left → keep waiting; still set with the bound exhausted
→ the loop exits anyway and the caller proceeds to the same
`needsNewBrowser` check, starting a second launch if no browser exists.
Completing a launch publishes the browser and clears the flag (the
`finally`). -/
def advanceFlagged (g : Globals) (pc : PC) : Globals × PC :=
  match pc with
  | .entry =>
    if g.isInitializing then (g, .waiting 30)
    else if !g.browser then
      ({ g with isInitializing := true, launches := g.launches + 1 }, .launching)
    else (g, .done)
  | .waiting n =>
    if !g.isInitializing then
      if !g.browser then
        ({ g with isInitializing := true, launches := g.launches + 1 }, .launching)
      else (g, .done)
    else if n ≤ 1 then
      if !g.browser then
        ({ g with isInitializing := true, launches := g.launches + 1 }, .launching)
      else (g, .done)
    else (g, .waiting (n - 1))
  | .launching => ({ g with browser := true, isInitializing := false }, .done)
  | .done => (g, .done)

/-- One scheduler step of a caller in the src/unnamed/part_000
`getBrowser` (lines 125-170), which has no `isInitializing` flag at
all: the `needsNewBrowser` check runs unconditionally and launches
whenever no browser exists. -/
def advanceUnflagged (g : Globals) (pc : PC) : Globals × PC :=
  match pc with
  | .entry =>
    if !g.browser then ({ g with launches := g.launches + 1 }, .launching)
    else (g, .done)
  | .waiting _ => (g, pc)
  | .launching => ({ g with browser := true }, .done)
  | .done => (g, .done)

/-- A two-caller system sharing one `BrowserManager`. -/
structure Mgr2 where
  g : Globals
  pcA : PC
  pcB : PC
deriving Repr, DecidableEq

/-- Advance the caller chosen by the scheduler (`false` = A,
`true` = B). -/
def step2 (adv : Globals → PC → Globals × PC) (s : Mgr2) (who : Bool) : Mgr2 :=
  if who then
    let r := adv s.g s.pcB
    { s with g := r.1, pcB := r.2 }
  else
    let r := adv s.g s.pcA
    { s with g := r.1, pcA := r.2 }

/-- Run a whole interleaving (a word of scheduler choices). -/
def run2 (adv : Globals → PC → Globals × PC) (s : Mgr2) (sched : List Bool) : Mgr2 :=
  sched.foldl (step2 adv) s

/-- Number of launches currently in flight. -/
def launchingCount (s : Mgr2) : ℕ :=
  (if s.pcA = PC.launching then 1 else 0) + (if s.pcB = PC.launching then 1 else 0)

/-- Fresh manager, both callers about to enter `getBrowser`. -/
def mgrInit : Mgr2 := ⟨⟨false, false, 0⟩, .entry, .entry⟩

/-! ### Helper lemmas -/

theorem total_addPassed (c : Category) (m : String) :
    (addPassed c m).total = c.total + 1 := by
  simp [addPassed, Category.total]; omega

theorem total_addFailed (c : Category) (m : String) :
    (addFailed c m).total = c.total + 1 := by
  simp [addFailed, Category.total]; omega

theorem total_addWarning (c : Category) (m : String) :
    (addWarning c m).total = c.total + 1 := by
  simp [addWarning, Category.total]; omega

theorem scoreCategory_passed (c : Category) : (scoreCategory c).passed = c.passed := by
  unfold scoreCategory; split <;> rfl

theorem scoreCategory_failed (c : Category) : (scoreCategory c).failed = c.failed := by
  unfold scoreCategory; split <;> rfl

theorem scoreCategory_warnings (c : Category) : (scoreCategory c).warnings = c.warnings := by
  unfold scoreCategory; split <;> rfl

theorem scoreCategory_total (c : Category) : (scoreCategory c).total = c.total := by
  simp [Category.total, scoreCategory_passed, scoreCategory_failed, scoreCategory_warnings]

theorem scoreCategory_score_of_pos (c : Category) (h : 0 < c.total) :
    (scoreCategory c).score =
      jsRound ((((c.passed.length : ℚ) + (c.warnings.length : ℚ) * (1/2)) /
        (c.total : ℚ)) * 100) := by
  unfold scoreCategory
  rw [if_pos h]

theorem calculateScores_commonSeo (r : Results) :
    (calculateScores r).commonSeo = scoreCategory r.commonSeo := by
  simp [calculateScores]

theorem calculateScores_speed (r : Results) :
    (calculateScores r).speed = scoreCategory r.speed := by
  simp [calculateScores]

theorem calculateScores_security (r : Results) :
    (calculateScores r).security = scoreCategory r.security := by
  simp [calculateScores]

theorem calculateScores_mobile (r : Results) :
    (calculateScores r).mobile = scoreCategory r.mobile := by
  simp [calculateScores]

theorem calculateScores_advancedSeo (r : Results) :
    (calculateScores r).advancedSeo = scoreCategory r.advancedSeo := by
  simp [calculateScores]

theorem runChecks_commonSeo_pos (i : PageInputs) : 0 < (runChecks i).commonSeo.total := by
  show 0 < (commonSeoChecks i).total
  unfold commonSeoChecks
  by_cases h : i.consoleErrors.length = 0 <;>
    simp [h, total_addPassed, total_addFailed]

theorem runChecks_speed_pos (i : PageInputs) : 0 < (runChecks i).speed.total := by
  show 0 < (speedChecks i).total
  unfold speedChecks
  by_cases h : htmlSizeKB i < 50 <;>
    simp [h, total_addPassed, total_addWarning]

theorem runChecks_security_pos (i : PageInputs) : 0 < (runChecks i).security.total := by
  show 0 < (securityChecks i).total
  unfold securityChecks
  by_cases h : i.hstsHeader = true <;>
    simp [h, total_addPassed, total_addWarning]

theorem runChecks_mobile_pos (i : PageInputs) : 0 < (runChecks i).mobile.total := by
  show 0 < (mobileChecks i).total
  unfold mobileChecks
  cases hv : i.viewport with
  | none => decide
  | some v =>
    by_cases h : strContains v "width=device-width" = true <;> simp [h] <;> decide

theorem runChecks_advancedSeo_pos (i : PageInputs) : 0 < (runChecks i).advancedSeo.total := by
  show 0 < (advancedSeoChecks i).total
  unfold advancedSeoChecks
  by_cases h1 : i.status = 404
  · simp [h1, total_addFailed]
  · by_cases h2 : 400 ≤ i.status <;>
      simp [h1, h2, total_addPassed, total_addFailed]

theorem total_lhMergeP_ge (c : Category) (o : LhOutcomeP) :
    c.total ≤ (lhMergeP c o).total := by
  cases o with
  | ok r =>
    unfold lhMergeP
    by_cases h : r.renderBlockingResources = 0 <;>
      simp [h, total_addPassed, total_addFailed]
  | err m => simp [lhMergeP]

theorem total_sslMergeP_ge (c : Category) (o : SslOutcomeP) :
    c.total ≤ (sslMergeP c o).total := by
  cases o with
  | ok info =>
    unfold sslMergeP
    by_cases h : info.isExpired = true <;>
      simp [h, total_addPassed, total_addFailed]
  | err m => simp [sslMergeP, total_addFailed]
  | notHttps => simp [sslMergeP]

theorem mergedReport_commonSeo (i : PageInputs) (lh : LhOutcomeP) (ssl : SslOutcomeP) :
    (mergedReport i lh ssl).commonSeo = commonSeoChecks i := rfl

theorem mergedReport_speed (i : PageInputs) (lh : LhOutcomeP) (ssl : SslOutcomeP) :
    (mergedReport i lh ssl).speed = lhMergeP (speedChecks i) lh := rfl

theorem mergedReport_security (i : PageInputs) (lh : LhOutcomeP) (ssl : SslOutcomeP) :
    (mergedReport i lh ssl).security = sslMergeP (securityChecks i) ssl := rfl

theorem mergedReport_mobile (i : PageInputs) (lh : LhOutcomeP) (ssl : SslOutcomeP) :
    (mergedReport i lh ssl).mobile = mobileChecks i := rfl

theorem mergedReport_advancedSeo (i : PageInputs) (lh : LhOutcomeP) (ssl : SslOutcomeP) :
    (mergedReport i lh ssl).advancedSeo = advancedSeoChecks i := rfl

/-! ### Claims -/

/-- C1: For every category with `P` passed findings, `F` failed
findings and `W` warning findings where `P+F+W > 0`, the Score
Aggregator computes the category score as
`round(100*(P+0.5*W)/(P+F+W))` — the code's
`Math.round(((passed + warnings*0.5) / totalChecks) * 100)` equals the
spec's arrangement of the same formula.  The instance `P=3, F=1, W=2
yields 67` is checked in the witness. -/
theorem categoryScore_matches_round_formula (c : Category)
    (h : 0 < c.passed.length + c.failed.length + c.warnings.length) :
    (scoreCategory c).score =
      jsRound (100 * ((c.passed.length : ℚ) + (1/2) * (c.warnings.length : ℚ)) /
        ((c.passed.length : ℚ) + (c.failed.length : ℚ) + (c.warnings.length : ℚ))) := by
  have h' : 0 < c.total := h
  rw [scoreCategory_score_of_pos c h']
  congr 1
  simp only [Category.total]
  push_cast
  ring

/-- A category with 3 passed, 1 failed and 2 warning findings. -/
def ex312 : Category := ⟨0, ["f1"], ["w1", "w2"], ["p1", "p2", "p3"]⟩

/-- Witness for `categoryScore_matches_round_formula` at `P=3, F=1,
W=2`, whose score is 67 as the claim states. -/
theorem categoryScore_matches_round_formula_witness :
    0 < ex312.passed.length + ex312.failed.length + ex312.warnings.length ∧
    (scoreCategory ex312).score = 67 := by
  refine ⟨by decide, ?_⟩
  rw [categoryScore_matches_round_formula ex312 (by decide)]
  norm_num [ex312, jsRound, Int.floor_eq_iff]

/-- A report whose five category scores come out as
`[80, 70, 100, 90, 60]`:
commonSeo 4 passed / 1 failed, speed 7 passed / 3 failed,
security 1 passed, mobile 9 passed / 1 failed,
advancedSeo 3 passed / 2 failed. -/
def exReport : Results :=
  { initialResults with
    commonSeo := ⟨0, ["f1"], [], ["p1", "p2", "p3", "p4"]⟩
    speed := ⟨0, ["f1", "f2", "f3"], [], ["p1", "p2", "p3", "p4", "p5", "p6", "p7"]⟩
    security := ⟨0, [], [], ["p1"]⟩
    mobile := ⟨0, ["f1"], [], ["p1", "p2", "p3", "p4", "p5", "p6", "p7", "p8", "p9"]⟩
    advancedSeo := ⟨0, ["f1", "f2"], [], ["p1", "p2", "p3"]⟩ }

/-- C2: The overall score is the weighted mean of the five category
scores with fixed weights commonSeo 0.30, speed 0.30, security 0.15,
mobile 0.15, advancedSeo 0.10, rounded to the nearest integer (all five
categories are always present, so `totalWeight = 1` and the overall
score is the rounded weighted sum); for category scores
`[80, 70, 100, 90, 60]` the overall score is 80. -/
theorem overallScore_weighted_mean :
    (∀ r : Results,
      (calculateScores r).overallScore =
        jsRound (((scoreCategory r.commonSeo).score : ℚ) * (3/10) +
          ((scoreCategory r.speed).score : ℚ) * (3/10) +
          ((scoreCategory r.security).score : ℚ) * (3/20) +
          ((scoreCategory r.mobile).score : ℚ) * (3/20) +
          ((scoreCategory r.advancedSeo).score : ℚ) * (1/10))) ∧
    (calculateScores exReport).commonSeo.score = 80 ∧
    (calculateScores exReport).speed.score = 70 ∧
    (calculateScores exReport).security.score = 100 ∧
    (calculateScores exReport).mobile.score = 90 ∧
    (calculateScores exReport).advancedSeo.score = 60 ∧
    (calculateScores exReport).overallScore = 80 := by
  have hgen : ∀ r : Results,
      (calculateScores r).overallScore =
        jsRound (((scoreCategory r.commonSeo).score : ℚ) * (3/10) +
          ((scoreCategory r.speed).score : ℚ) * (3/10) +
          ((scoreCategory r.security).score : ℚ) * (3/20) +
          ((scoreCategory r.mobile).score : ℚ) * (3/20) +
          ((scoreCategory r.advancedSeo).score : ℚ) * (1/10)) := by
    intro r
    simp only [calculateScores]
    rw [if_pos (by norm_num : (0 : ℚ) < 3/10 + 3/10 + 3/20 + 3/20 + 1/10)]
    congr 1
    norm_num
  have hc : (scoreCategory exReport.commonSeo).score = 80 := by
    rw [scoreCategory_score_of_pos _ (by decide)]
    norm_num [exReport, initialResults, Category.total, jsRound, Int.floor_eq_iff]
  have hs : (scoreCategory exReport.speed).score = 70 := by
    rw [scoreCategory_score_of_pos _ (by decide)]
    norm_num [exReport, initialResults, Category.total, jsRound, Int.floor_eq_iff]
  have hsec : (scoreCategory exReport.security).score = 100 := by
    rw [scoreCategory_score_of_pos _ (by decide)]
    norm_num [exReport, initialResults, Category.total, jsRound, Int.floor_eq_iff]
  have hm : (scoreCategory exReport.mobile).score = 90 := by
    rw [scoreCategory_score_of_pos _ (by decide)]
    norm_num [exReport, initialResults, Category.total, jsRound, Int.floor_eq_iff]
  have ha : (scoreCategory exReport.advancedSeo).score = 60 := by
    rw [scoreCategory_score_of_pos _ (by decide)]
    norm_num [exReport, initialResults, Category.total, jsRound, Int.floor_eq_iff]
  refine ⟨hgen, ?_, ?_, ?_, ?_, ?_, ?_⟩
  · rw [calculateScores_commonSeo]; exact hc
  · rw [calculateScores_speed]; exact hs
  · rw [calculateScores_security]; exact hsec
  · rw [calculateScores_mobile]; exact hm
  · rw [calculateScores_advancedSeo]; exact ha
  · rw [hgen exReport, hc, hs, hsec, hm, ha]
    norm_num [jsRound, Int.floor_eq_iff]

/-- C3 (counterexample): the claim says every fetch returns best-effort
content to the caller when navigation yields a status >= 400, but the
`analyzePage` fetcher of src/server.js treats `status >= 400` as a
thrown navigation error (`throw new Error(...)` at line 270): with a
reachable 404 response on all three navigation attempts the fetch
aborts with an error instead of returning content. -/
theorem analyzePage_aborts_on_error_status :
    analyzePage [⟨true, true,
      [.httpError 404 "Not Found", .httpError 404 "Not Found",
        .httpError 404 "Not Found"]⟩] =
    (.error "Failed to load page after 3 navigation attempts: HTTP 404: Not Found",
      1, 1) := by
  decide

/-- C3 (amended): In `getPageContent` of the five-category variant, a
navigation that yields a response with status >= 400 still returns
best-effort content together with the response headers and status, so
rule checks can run against the error page; in `analyzePage` of
src/server.js, however, a status >= 400 response is treated as a failed
navigation attempt and, after the attempts are exhausted, aborts the
fetch with an error. -/
theorem getPageContent_returns_error_pages (env : FetchEnv) (resp : NavResponse)
    (hb : env.browserOk = true) (hp : env.newPageOk = true)
    (hn : env.navResult = Except.ok (some resp)) (hs : 400 ≤ resp.status) :
    ∃ c : String,
      getPageContent env =
        (Except.ok ⟨c, resp.headers, env.consoleErrors, resp.status⟩, 1, 1) := by
  unfold getPageContent
  rw [hb, hp, hn]
  simp only [Bool.not_true, Bool.false_eq_true, if_false]
  rw [if_pos hs]
  exact ⟨_, rfl⟩

/-- A concrete fetch environment whose navigation resolves to a 404
response. -/
def env404 : FetchEnv :=
  ⟨true, true, Except.ok (some ⟨404, [("content-type", "text/html")], "Not Found"⟩),
    Except.ok "<html><body>missing</body></html>", []⟩

/-- Witness for `getPageContent_returns_error_pages` at a concrete 404
response. -/
theorem getPageContent_returns_error_pages_witness :
    env404.browserOk = true ∧ env404.newPageOk = true ∧
    env404.navResult =
      Except.ok (some ⟨404, [("content-type", "text/html")], "Not Found"⟩) ∧
    400 ≤ (404 : ℕ) ∧
    ∃ c : String,
      getPageContent env404 =
        (Except.ok ⟨c, [("content-type", "text/html")], [], 404⟩, 1, 1) :=
  ⟨rfl, rfl, rfl, by decide,
    getPageContent_returns_error_pages env404
      ⟨404, [("content-type", "text/html")], "Not Found"⟩ rfl rfl rfl (by decide)⟩

/-- C4 (counterexample): the claim says that for every interleaving of
concurrent `getBrowser` calls at most one initialization is ever in
progress.  Two interleavings refute it: in the part_000 variant (no
`isInitializing` flag) two callers that both run their
`needsNewBrowser` check before either launch completes both start a
launch; in the src/server.js variant a waiting caller whose 30-poll
bound expires while the first initialization is still in flight
proceeds to the check and starts a second launch.  Both runs end with
two launches simultaneously in flight and two `puppeteer.launch`
invocations counted. -/
theorem browser_double_launch_interleavings :
    launchingCount (run2 advanceUnflagged mgrInit [false, true]) = 2 ∧
    (run2 advanceUnflagged mgrInit [false, true]).g.launches = 2 ∧
    launchingCount (run2 advanceFlagged mgrInit (false :: List.replicate 31 true)) = 2 ∧
    (run2 advanceFlagged mgrInit (false :: List.replicate 31 true)).g.launches = 2 := by
  decide

/-- C4 (amended): In the src/server.js `getBrowser`, a caller that
arrives while an initialization is in flight first enters the bounded
wait loop (up to 30 half-second polls of the flag) rather than
launching, and starts no launch in that step; the wait is bounded,
however, so a caller whose polls are exhausted while the
initialization is still in flight — and, in the part_000 variant,
which has no flag, any concurrent caller — can start a second launch,
so at-most-one-initialization does not hold for every interleaving. -/
theorem entry_waits_during_initialization (s : Mgr2)
    (h1 : s.pcA = PC.entry) (h2 : s.g.isInitializing = true) :
    (step2 advanceFlagged s false).pcA = PC.waiting 30 ∧
    (step2 advanceFlagged s false).g.launches = s.g.launches := by
  simp [step2, advanceFlagged, h1, h2]

/-- A manager state with an initialization in flight (caller B is
launching) and caller A about to enter `getBrowser`. -/
def mgrDuringInit : Mgr2 := ⟨⟨false, true, 1⟩, .entry, .launching⟩

/-- Witness for `entry_waits_during_initialization` at a concrete state
with an initialization in flight. -/
theorem entry_waits_during_initialization_witness :
    mgrDuringInit.pcA = PC.entry ∧ mgrDuringInit.g.isInitializing = true ∧
    (step2 advanceFlagged mgrDuringInit false).pcA = PC.waiting 30 ∧
    (step2 advanceFlagged mgrDuringInit false).g.launches = mgrDuringInit.g.launches :=
  ⟨rfl, rfl,
    (entry_waits_during_initialization mgrDuringInit rfl rfl).1,
    (entry_waits_during_initialization mgrDuringInit rfl rfl).2⟩

/-- C5 (counterexample): the claim says a Certificate Prober failure is
recorded as a warning entry in the security category and never as a
failed entry; but the five-category handler (src/unnamed/part_001 line
429) pushes the probe failure onto `security.failed`: merging a timed
out probe into an empty security category yields one failed entry and
no warning. -/
theorem ssl_failure_recorded_as_failed :
    (sslMergeP emptyCategory (SslOutcomeP.err "SSL connection timed out.")).failed =
      ["Could not verify SSL certificate: SSL connection timed out."] ∧
    (sslMergeP emptyCategory (SslOutcomeP.err "SSL connection timed out.")).warnings = [] :=
  ⟨rfl, rfl⟩

/-- C5 (amended): For every HTTPS analysis in which the Certificate
Prober times out or otherwise fails, the `/api/analyze` request still
succeeds and the security category score is computed from all the other
security checks; in src/server.js the probe failure is recorded as a
warning entry (appended after the security score was already computed,
which it therefore does not change), while in the five-category variant
it is recorded as a failed entry in the security category — in neither
variant does it fail the whole request. -/
theorem ssl_failure_degrades_not_aborts (sec : Category) (m : String) :
    sslStepServer sec (Except.error m) =
      { sec with warnings := sec.warnings ++ ["SSL certificate analysis failed or timed out"] } ∧
    (sslStepServer sec (Except.error m)).score = sec.score ∧
    sslMergeP sec (SslOutcomeP.err m) =
      { sec with failed := sec.failed ++ ["Could not verify SSL certificate: " ++ m] } ∧
    (∀ (i : PageInputs) (lh : LhOutcomeP),
      (analyzeHandler i lh (SslOutcomeP.err m)).sslInfo = some (SslOutcomeP.err m)) := by
  refine ⟨rfl, rfl, rfl, ?_⟩
  intro i lh
  simp [analyzeHandler, calculateScores, mergedReport]

/-- C6: For every analysis in which the Lighthouse audit fails or times
out, the error is caught at the call site and recorded as a fixed-shape
error marker in the report's audit block, the report is still produced
(200 path) with all five categories still populated, and no category is
touched by the failed audit.  Both variants are covered: the
five-category handler leaves every category unchanged and stores the
`.catch` marker, and src/server.js leaves the already-computed scores
unchanged and stores the all-`N/A` marker whose `error` field is
`Analysis timed out` for timeout messages and `Analysis failed`
otherwise. -/
theorem lighthouse_failure_nonblocking :
    (∀ (c : Category) (m : String), lhMergeP c (LhOutcomeP.err m) = c) ∧
    (∀ (p s : ℤ) (m : String),
      lhStepServer p s (Except.error m) =
        (p, s, LhMetricsS.marker
          (if strContains m "timeout" then "Analysis timed out" else "Analysis failed"))) ∧
    (∀ (i : PageInputs) (m : String) (ssl : SslOutcomeP),
      (analyzeHandler i (LhOutcomeP.err m) ssl).lighthouseReport =
        some (LhOutcomeP.err m) ∧
      (mergedReport i (LhOutcomeP.err m) ssl).speed = speedChecks i ∧
      0 < (analyzeHandler i (LhOutcomeP.err m) ssl).commonSeo.total ∧
      0 < (analyzeHandler i (LhOutcomeP.err m) ssl).speed.total ∧
      0 < (analyzeHandler i (LhOutcomeP.err m) ssl).security.total ∧
      0 < (analyzeHandler i (LhOutcomeP.err m) ssl).mobile.total ∧
      0 < (analyzeHandler i (LhOutcomeP.err m) ssl).advancedSeo.total) := by
  refine ⟨fun c m => rfl, fun p s m => rfl, ?_⟩
  intro i m ssl
  refine ⟨?_, rfl, ?_, ?_, ?_, ?_, ?_⟩
  · simp [analyzeHandler, calculateScores, mergedReport]
  · rw [show (analyzeHandler i (LhOutcomeP.err m) ssl).commonSeo =
        scoreCategory (mergedReport i (LhOutcomeP.err m) ssl).commonSeo from
        calculateScores_commonSeo _, scoreCategory_total, mergedReport_commonSeo]
    exact runChecks_commonSeo_pos i
  · rw [show (analyzeHandler i (LhOutcomeP.err m) ssl).speed =
        scoreCategory (mergedReport i (LhOutcomeP.err m) ssl).speed from
        calculateScores_speed _, scoreCategory_total, mergedReport_speed]
    exact lt_of_lt_of_le (runChecks_speed_pos i) (total_lhMergeP_ge _ _)
  · rw [show (analyzeHandler i (LhOutcomeP.err m) ssl).security =
        scoreCategory (mergedReport i (LhOutcomeP.err m) ssl).security from
        calculateScores_security _, scoreCategory_total, mergedReport_security]
    exact lt_of_lt_of_le (runChecks_security_pos i) (total_sslMergeP_ge _ _)
  · rw [show (analyzeHandler i (LhOutcomeP.err m) ssl).mobile =
        scoreCategory (mergedReport i (LhOutcomeP.err m) ssl).mobile from
        calculateScores_mobile _, scoreCategory_total, mergedReport_mobile]
    exact runChecks_mobile_pos i
  · rw [show (analyzeHandler i (LhOutcomeP.err m) ssl).advancedSeo =
        scoreCategory (mergedReport i (LhOutcomeP.err m) ssl).advancedSeo from
        calculateScores_advancedSeo _, scoreCategory_total, mergedReport_advancedSeo]
    exact runChecks_advancedSeo_pos i

/-- C7: Whenever the Lighthouse audit succeeds, merging its performance
and seo numeric scores into the src/server.js report is the
take-the-max policy: the merged category score equals the maximum of
the rule-based score and the audit score, so the merge never lowers a
category score. -/
theorem lighthouse_success_max_merge (p s : ℤ) (r : LighthouseResultS) :
    lhStepServer p s (Except.ok r) =
      (max p r.performance, max s r.seo, LhMetricsS.result r) ∧
    p ≤ (lhStepServer p s (Except.ok r)).1 ∧
    s ≤ (lhStepServer p s (Except.ok r)).2.1 := by
  refine ⟨rfl, ?_, ?_⟩ <;> simp [lhStepServer]

theorem getPageContent_balanced (env : FetchEnv) :
    (getPageContent env).2.1 = (getPageContent env).2.2 := by
  unfold getPageContent
  rcases env with ⟨b, p, nav, pc, ce⟩
  cases b <;> cases p <;> simp <;>
    (rcases nav with e | (_ | resp)) <;> simp <;>
      (try split) <;> (try split) <;> rfl

theorem analyzeIter_balanced (e : IterEnv) :
    (analyzeIter e).2.1 = (analyzeIter e).2.2 := by
  unfold analyzeIter
  rcases e with ⟨d, p, navs⟩
  cases d <;> cases p <;> simp <;> (try split) <;> rfl

theorem analyzePageLoop_balanced (iters : List IterEnv) (n : ℕ) :
    (analyzePageLoop iters n).2.1 = (analyzePageLoop iters n).2.2 := by
  induction iters generalizing n with
  | nil => rfl
  | cons e rest ih =>
    unfold analyzePageLoop
    have hb := analyzeIter_balanced e
    rcases he : analyzeIter e with ⟨res, o, cl⟩
    rw [he] at hb
    simp only at hb
    cases res with
    | ok c => exact hb
    | error m =>
      by_cases hc : 0 < n ∧ browserRelated m = true
      · simp only [if_pos hc]
        simp [hb, ih]
      · simp only [if_neg hc]
        exact hb

/-- C8: For every fetch, the page session opened for it is closed
exactly once on every exit path.  In `getPageContent` of the
five-category variant the `finally` block closes the page on success,
thrown navigation error and timeout alike; in `analyzePage` of
src/server.js the `catch` block closes the page and nulls it before a
retry or rethrow, and the `finally` block closes it on the success
path, so across every environment the number of page sessions opened
equals the number closed — none leaked, none closed twice. -/
theorem page_session_closed_exactly_once :
    (∀ env : FetchEnv, (getPageContent env).2.1 = (getPageContent env).2.2) ∧
    (∀ (iters : List IterEnv) (n : ℕ),
      (analyzePageLoop iters n).2.1 = (analyzePageLoop iters n).2.2) :=
  ⟨getPageContent_balanced, analyzePageLoop_balanced⟩

/-- A concrete set of page inputs (an HTTPS page with a short title, no
meta description, one H1, a device-width viewport and a favicon). -/
def exInputs : PageInputs :=
  ⟨"Home", none, 1, 0, 0, [], 0, 0, 1000, false,
    some "width=device-width, initial-scale=1", none, 0, 1, false, true, 200⟩

/-- C9: The Rule Evaluator is deterministic: two runs over identical
extracted page facts, headers, console errors and parsed-URL protocol
produce identical finding lists in every category and identical
category scores.  The check battery and the score aggregation are pure
functions of their inputs (no I/O, clock or randomness enters the
embedding, matching the source, whose only inputs at these lines are
the cheerio document, headers, console errors and parsed URL). -/
theorem rule_evaluator_deterministic (a b : PageInputs) (h : a = b) :
    runChecks a = runChecks b ∧
    calculateScores (runChecks a) = calculateScores (runChecks b) := by
  subst h
  exact ⟨rfl, rfl⟩

/-- Witness for `rule_evaluator_deterministic` at a concrete input. -/
theorem rule_evaluator_deterministic_witness :
    exInputs = exInputs ∧
    runChecks exInputs = runChecks exInputs ∧
    calculateScores (runChecks exInputs) = calculateScores (runChecks exInputs) :=
  ⟨rfl, (rule_evaluator_deterministic exInputs exInputs rfl).1,
    (rule_evaluator_deterministic exInputs exInputs rfl).2⟩

/-- C10: Every report built by the five-category `/api/analyze` handler
has at least one finding in each of the five categories before scoring
(the title, inline-CSS, HTTPS-protocol, viewport and canonical rules
each unconditionally append a finding to their category, and the async
merges only append further), so the `totalChecks == 0` branch of
`calculateScores` — the empty-category default score of 100 — is
unreachable: every category score of the handler's report is computed
by the `totalChecks > 0` formula. -/
theorem five_categories_always_populated (i : PageInputs) (lh : LhOutcomeP)
    (ssl : SslOutcomeP) :
    0 < (mergedReport i lh ssl).commonSeo.total ∧
    0 < (mergedReport i lh ssl).speed.total ∧
    0 < (mergedReport i lh ssl).security.total ∧
    0 < (mergedReport i lh ssl).mobile.total ∧
    0 < (mergedReport i lh ssl).advancedSeo.total ∧
    (analyzeHandler i lh ssl).commonSeo.score =
      jsRound ((((mergedReport i lh ssl).commonSeo.passed.length : ℚ) +
        ((mergedReport i lh ssl).commonSeo.warnings.length : ℚ) * (1/2)) /
        ((mergedReport i lh ssl).commonSeo.total : ℚ) * 100) ∧
    (analyzeHandler i lh ssl).speed.score =
      jsRound ((((mergedReport i lh ssl).speed.passed.length : ℚ) +
        ((mergedReport i lh ssl).speed.warnings.length : ℚ) * (1/2)) /
        ((mergedReport i lh ssl).speed.total : ℚ) * 100) ∧
    (analyzeHandler i lh ssl).security.score =
      jsRound ((((mergedReport i lh ssl).security.passed.length : ℚ) +
        ((mergedReport i lh ssl).security.warnings.length : ℚ) * (1/2)) /
        ((mergedReport i lh ssl).security.total : ℚ) * 100) ∧
    (analyzeHandler i lh ssl).mobile.score =
      jsRound ((((mergedReport i lh ssl).mobile.passed.length : ℚ) +
        ((mergedReport i lh ssl).mobile.warnings.length : ℚ) * (1/2)) /
        ((mergedReport i lh ssl).mobile.total : ℚ) * 100) ∧
    (analyzeHandler i lh ssl).advancedSeo.score =
      jsRound ((((mergedReport i lh ssl).advancedSeo.passed.length : ℚ) +
        ((mergedReport i lh ssl).advancedSeo.warnings.length : ℚ) * (1/2)) /
        ((mergedReport i lh ssl).advancedSeo.total : ℚ) * 100) := by
  have h1 : 0 < (mergedReport i lh ssl).commonSeo.total := by
    rw [mergedReport_commonSeo]; exact runChecks_commonSeo_pos i
  have h2 : 0 < (mergedReport i lh ssl).speed.total := by
    rw [mergedReport_speed]
    exact lt_of_lt_of_le (runChecks_speed_pos i) (total_lhMergeP_ge _ _)
  have h3 : 0 < (mergedReport i lh ssl).security.total := by
    rw [mergedReport_security]
    exact lt_of_lt_of_le (runChecks_security_pos i) (total_sslMergeP_ge _ _)
  have h4 : 0 < (mergedReport i lh ssl).mobile.total := by
    rw [mergedReport_mobile]; exact runChecks_mobile_pos i
  have h5 : 0 < (mergedReport i lh ssl).advancedSeo.total := by
    rw [mergedReport_advancedSeo]; exact runChecks_advancedSeo_pos i
  refine ⟨h1, h2, h3, h4, h5, ?_, ?_, ?_, ?_, ?_⟩
  · rw [show (analyzeHandler i lh ssl).commonSeo =
      scoreCategory (mergedReport i lh ssl).commonSeo from calculateScores_commonSeo _]
    exact scoreCategory_score_of_pos _ h1
  · rw [show (analyzeHandler i lh ssl).speed =
      scoreCategory (mergedReport i lh ssl).speed from calculateScores_speed _]
    exact scoreCategory_score_of_pos _ h2
  · rw [show (analyzeHandler i lh ssl).security =
      scoreCategory (mergedReport i lh ssl).security from calculateScores_security _]
    exact scoreCategory_score_of_pos _ h3
  · rw [show (analyzeHandler i lh ssl).mobile =
      scoreCategory (mergedReport i lh ssl).mobile from calculateScores_mobile _]
    exact scoreCategory_score_of_pos _ h4
  · rw [show (analyzeHandler i lh ssl).advancedSeo =
      scoreCategory (mergedReport i lh ssl).advancedSeo from calculateScores_advancedSeo _]
    exact scoreCategory_score_of_pos _ h5

end TestSeo
